import Mathlib

/-!
Verification of the Bay Wheels trip-analytics pipeline
(`october_analysis.py`, `october_insights.py`, `app.py`).

Shallow embedding conventions:
- A pandas DataFrame of trips is a `List` of records; a missing value (NaN in a
  float column) is `Option.none`.
- Floating-point coordinate/duration/distance values are modelled as `ℚ`.
- `groupby(key).size()` sorts the group keys ascending (pandas default
  `sort=True`); key sorting is modelled with `List.insertionSort`.
- `sort_values(ascending=False)` in pandas is `nargsort`: an ascending argsort
  followed by reversing the indexer.  On the small already-grouped arrays at
  hand numpy's argsort behaves as a stable sort, so the model is
  "stable ascending sort, then reverse".
-/

namespace BayWheels

/-- One raw CSV record as read by `pd.read_csv`.  The four coordinate columns
are float columns whose entries may be missing (NaN), hence `Option ℚ`;
the timestamp columns are the raw strings handed to `pd.to_datetime`. -/
structure RawRecord where
  start_lat : Option ℚ
  start_lng : Option ℚ
  end_lat : Option ℚ
  end_lng : Option ℚ
  started_at : String
  ended_at : String
  start_station_name : String
  end_station_name : String
  member_casual : String
deriving DecidableEq

/-- `df.dropna(subset=["start_lat", "start_lng", "end_lat", "end_lng"])`:
a row survives iff all four coordinates are present. -/
def hasCoords (r : RawRecord) : Bool :=
  r.start_lat.isSome && r.start_lng.isSome && r.end_lat.isSome && r.end_lng.isSome

/-- The chained `between` filter of `load_and_preprocess_data`
(`october_analysis.py` lines 16-21, `october_insights.py` lines 22-27):
`start_lat.between(-90, 90) & end_lat.between(-90, 90) &
 start_lng.between(-180, 180) & end_lng.between(-180, 180)`.
pandas `between` is inclusive on both ends, and any comparison against a
missing value is false. -/
def coordsInRange (r : RawRecord) : Bool :=
  match r.start_lat, r.end_lat, r.start_lng, r.end_lng with
  | some slat, some elat, some slng, some elng =>
      (decide (-90 ≤ slat) && decide (slat ≤ 90)) &&
      (decide (-90 ≤ elat) && decide (elat ≤ 90)) &&
      (decide (-180 ≤ slng) && decide (slng ≤ 180)) &&
      (decide (-180 ≤ elng) && decide (elng ≤ 180))
  | _, _, _, _ => false

/-- The validation stage of `load_and_preprocess_data`: drop rows with missing
coordinates, then drop rows with out-of-range coordinates. -/
def validateRecords (rs : List RawRecord) : List RawRecord :=
  (rs.filter hasCoords).filter coordsInRange

/-- The spec's validity predicate, written from its words: the four coordinates
(start_lat, start_lng, end_lat, end_lng) are all present and satisfy
`lat ∈ [-90, 90]` and `lng ∈ [-180, 180]`. -/
def specValid (r : RawRecord) : Bool :=
  r.start_lat.any (fun a => decide (-90 ≤ a) && decide (a ≤ 90)) &&
  r.start_lng.any (fun a => decide (-180 ≤ a) && decide (a ≤ 180)) &&
  r.end_lat.any (fun a => decide (-90 ≤ a) && decide (a ≤ 90)) &&
  r.end_lng.any (fun a => decide (-180 ≤ a) && decide (a ≤ 180))

theorem hasCoords_and_coordsInRange (r : RawRecord) :
    (coordsInRange r && hasCoords r) = specValid r := by
  obtain ⟨sa, so, ea, eo, _, _, _, _, _⟩ := r
  cases sa <;> cases so <;> cases ea <;> cases eo <;>
    simp [hasCoords, coordsInRange, specValid, Option.any] <;>
    rw [Bool.eq_iff_iff] <;> simp <;> tauto

/-- C1: the validation stage is exactly the stable filter keeping records whose
four coordinates are present and in range: it equals the spec-side filter
(so a record survives iff it is valid, no valid record is dropped), and the
output is a sublist of the input (relative order preserved). -/
theorem validation_spec (rs : List RawRecord) :
    validateRecords rs = rs.filter specValid ∧ (validateRecords rs).Sublist rs := by
  constructor
  · rw [validateRecords, List.filter_filter]
    exact List.filter_congr fun r _ => hasCoords_and_coordsInRange r
  · exact ((rs.filter hasCoords).filter_sublist.trans rs.filter_sublist)

/-! Enriched trips and pandas grouping/sorting primitives -/

/-- One row of the enriched DataFrame produced by `load_and_preprocess_data`:
the raw identity columns plus the derived columns used by the aggregations. -/
structure Trip where
  start_station_name : String
  end_station_name : String
  member_casual : String
  trip_duration_minutes : ℚ
  date : ℕ
  hour : ℕ
  day_of_week : String
  is_weekend : Bool
  is_rush_hour : Bool
  distance_miles : ℚ
deriving DecidableEq

/-- Python's string comparison: lexicographic on the sequence of code points.
Stated on `String.data` so that it is kernel-computable. -/
def stringLe (a b : String) : Prop := a.data ≤ b.data

instance : DecidableRel stringLe :=
  fun a b => inferInstanceAs (Decidable (a.data ≤ b.data))

instance : IsTotal String stringLe := ⟨fun a b => le_total a.data b.data⟩

instance : IsTrans String stringLe := ⟨fun _ _ _ h1 h2 => le_trans h1 h2⟩

instance : IsAntisymm String stringLe :=
  ⟨fun a b h1 h2 => by
    cases a with
    | mk da => cases b with
      | mk db => exact congrArg String.mk (le_antisymm h1 h2)⟩

/-- Keys of `xs.groupby(k)`: the distinct values sorted ascending
(pandas groups with `sort=True` by default). -/
def sortedKeys (xs : List String) : List String :=
  xs.dedup.insertionSort stringLe

/-- `df.groupby(col).size()`: a Series mapping each distinct key (ascending) to
the number of rows carrying it. -/
def groupbySize (xs : List String) : List (String × ℕ) :=
  (sortedKeys xs).map (fun k => (k, xs.count k))

/-- Label lookup into a Series with fill value 0 (the effect of
`reindex(idx, fill_value=0)` or of alignment followed by `fillna(0)`). -/
def lookupD (tbl : List (String × ℕ)) (k : String) : ℕ :=
  ((tbl.find? (fun p => p.1 == k)).map Prod.snd).getD 0

/-- `pd.Index.union`: the sorted union of two indexes. -/
def indexUnion (xs ys : List String) : List String :=
  sortedKeys (xs ++ ys)

/-- `sort_values(ascending=False)` by a key: pandas `nargsort` performs an
ascending argsort and reverses the indexer; on the small grouped arrays here
the argsort is stable, so the model is a stable ascending sort then reverse. -/
def sortDescBy {α β : Type} [LinearOrder β] (key : α → β) (l : List α) : List α :=
  (l.insertionSort (fun a b => key a ≤ key b)).reverse

/-- One row of a station-imbalance table: `StationStats` of the spec.
In `october_insights.py` the start/end counts are stored as floats after
`fillna(0)`; they are numerically equal to these naturals. -/
structure StationStats where
  station_name : String
  start_count : ℕ
  end_count : ℕ
  imbalance : ℤ
deriving DecidableEq

/-- `station_differences` of `october_analysis.py` lines 47-58: start/end
groupby sizes, reindexed over the union of the two station-name indexes with
fill 0 (the end column reindexes over `end.union(start)`, the start column
over `start.union(end)`); the DataFrame zips the three equal-length columns
positionally; `imbalance = end_count - start_count`; rows sorted by imbalance
descending. -/
def station_differences (df : List Trip) : List StationStats :=
  let start_counts := groupbySize (df.map Trip.start_station_name)
  let end_counts := groupbySize (df.map Trip.end_station_name)
  let names := indexUnion (start_counts.map Prod.fst) (end_counts.map Prod.fst)
  let startCol := (indexUnion (start_counts.map Prod.fst) (end_counts.map Prod.fst)).map
    (lookupD start_counts)
  let endCol := (indexUnion (end_counts.map Prod.fst) (start_counts.map Prod.fst)).map
    (lookupD end_counts)
  let rows := (names.zip (startCol.zip endCol)).map (fun p =>
    { station_name := p.1, start_count := p.2.1, end_count := p.2.2,
      imbalance := (p.2.2 : ℤ) - (p.2.1 : ℤ) })
  sortDescBy StationStats.imbalance rows

/-- The second `station_differences` of `october_analysis.py` lines 393-404:
identical except that the end column reindexes over `start.union(end)`. -/
def station_differences' (df : List Trip) : List StationStats :=
  let start_counts := groupbySize (df.map Trip.start_station_name)
  let end_counts := groupbySize (df.map Trip.end_station_name)
  let names := indexUnion (start_counts.map Prod.fst) (end_counts.map Prod.fst)
  let startCol := (indexUnion (start_counts.map Prod.fst) (end_counts.map Prod.fst)).map
    (lookupD start_counts)
  let endCol := (indexUnion (start_counts.map Prod.fst) (end_counts.map Prod.fst)).map
    (lookupD end_counts)
  let rows := (names.zip (startCol.zip endCol)).map (fun p =>
    { station_name := p.1, start_count := p.2.1, end_count := p.2.2,
      imbalance := (p.2.2 : ℤ) - (p.2.1 : ℤ) })
  sortDescBy StationStats.imbalance rows

/-- `station_flows` of `october_insights.py` lines 64-70:
`pd.DataFrame({"starts": ..., "ends": ...})` aligns the two groupby Series on
the sorted union of their indexes, leaving NaN where a label is missing, and
`fillna(0)` turns those into 0; `imbalance = ends - starts`; rows sorted by
imbalance descending.  The station name is the row index. -/
def station_flows (df : List Trip) : List StationStats :=
  let starts := groupbySize (df.map Trip.start_station_name)
  let ends := groupbySize (df.map Trip.end_station_name)
  let idx := indexUnion (starts.map Prod.fst) (ends.map Prod.fst)
  let rows := idx.map (fun k =>
    { station_name := k, start_count := lookupD starts k, end_count := lookupD ends k,
      imbalance := (lookupD ends k : ℤ) - (lookupD starts k : ℤ) })
  sortDescBy StationStats.imbalance rows

/-! Lemmas about the grouping/sorting primitives -/

theorem mem_sortedKeys {xs : List String} {a : String} : a ∈ sortedKeys xs ↔ a ∈ xs := by
  rw [sortedKeys, List.mem_insertionSort, List.mem_dedup]

theorem nodup_sortedKeys (xs : List String) : (sortedKeys xs).Nodup :=
  ((xs.dedup.perm_insertionSort stringLe).nodup_iff).mpr xs.nodup_dedup

theorem sortedKeys_sorted (xs : List String) : (sortedKeys xs).Sorted stringLe :=
  List.sorted_insertionSort stringLe xs.dedup

theorem sortedKeys_congr {xs ys : List String} (h : ∀ a, a ∈ xs ↔ a ∈ ys) :
    sortedKeys xs = sortedKeys ys := by
  apply List.eq_of_perm_of_sorted ?_ (sortedKeys_sorted xs) (sortedKeys_sorted ys)
  refine ((xs.dedup.perm_insertionSort stringLe).trans ?_).trans
    (ys.dedup.perm_insertionSort stringLe).symm
  rw [List.perm_iff_count]
  intro a
  rw [List.count_dedup, List.count_dedup]
  simp [h a]

theorem indexUnion_comm (xs ys : List String) : indexUnion xs ys = indexUnion ys xs :=
  sortedKeys_congr (by intro a; rw [List.mem_append, List.mem_append]; tauto)

theorem mem_indexUnion {xs ys : List String} {a : String} :
    a ∈ indexUnion xs ys ↔ a ∈ xs ∨ a ∈ ys := by
  rw [indexUnion, mem_sortedKeys, List.mem_append]

theorem lookupD_map_count (xs ks : List String) (k : String) :
    lookupD (ks.map fun j => (j, xs.count j)) k = if k ∈ ks then xs.count k else 0 := by
  induction ks with
  | nil => simp [lookupD]
  | cons j ks ih =>
    by_cases hj : j = k
    · subst hj
      simp [lookupD, List.find?_cons_of_pos]
    · rw [List.map_cons, lookupD, List.find?_cons_of_neg _ (by simpa using hj)]
      rw [lookupD] at ih
      rw [ih]
      have hk : ¬k = j := fun h => hj h.symm
      simp [hk, List.mem_cons]

theorem lookupD_groupbySize (xs : List String) (k : String) :
    lookupD (groupbySize xs) k = xs.count k := by
  rw [groupbySize, lookupD_map_count]
  by_cases h : k ∈ sortedKeys xs
  · simp [h]
  · rw [if_neg h, eq_comm, List.count_eq_zero]
    exact fun hx => h (mem_sortedKeys.mpr hx)

theorem sortDescBy_perm {α β : Type} [LinearOrder β] (key : α → β) (l : List α) :
    (sortDescBy key l).Perm l :=
  ((l.insertionSort fun a b => key a ≤ key b).reverse_perm).trans
    (l.perm_insertionSort fun a b => key a ≤ key b)

theorem sortDescBy_sorted {α β : Type} [LinearOrder β] (key : α → β) (l : List α) :
    (sortDescBy key l).Pairwise (fun a b => key b ≤ key a) := by
  rw [sortDescBy, List.pairwise_reverse]
  haveI : IsTotal α (fun a b => key a ≤ key b) := ⟨fun a b => le_total _ _⟩
  haveI : IsTrans α (fun a b => key a ≤ key b) := ⟨fun _ _ _ => le_trans⟩
  exact List.sorted_insertionSort _ l

theorem zip_map_map {α β γ : Type} (l : List α) (f : α → β) (g : α → γ) :
    l.zip ((l.map f).zip (l.map g)) = l.map (fun a => (a, f a, g a)) := by
  induction l with
  | nil => rfl
  | cons a l ih => simp [ih]

/-! The three station-imbalance computations collapse to one canonical form -/

/-- The sorted union of the start-station and end-station groupby indexes. -/
def stationIndex (df : List Trip) : List String :=
  indexUnion ((groupbySize (df.map Trip.start_station_name)).map Prod.fst)
    ((groupbySize (df.map Trip.end_station_name)).map Prod.fst)

/-- The canonical imbalance row for one station: the true start and end counts
and their signed difference. -/
def stationRow (df : List Trip) (k : String) : StationStats :=
  { station_name := k,
    start_count := (df.map Trip.start_station_name).count k,
    end_count := (df.map Trip.end_station_name).count k,
    imbalance := ((df.map Trip.end_station_name).count k : ℤ) -
      ((df.map Trip.start_station_name).count k : ℤ) }

/-- Canonical description of a station-imbalance table: one row per station in
the sorted union of start and end station names, carrying the true start and
end counts, sorted by imbalance descending. -/
def stationTable (df : List Trip) : List StationStats :=
  sortDescBy StationStats.imbalance ((stationIndex df).map (stationRow df))

theorem station_differences_eq_canonical (df : List Trip) :
    station_differences df = stationTable df := by
  rw [station_differences, stationTable, stationIndex,
    indexUnion_comm ((groupbySize (df.map Trip.end_station_name)).map Prod.fst),
    zip_map_map, List.map_map]
  simp only [Function.comp_def, lookupD_groupbySize]
  rfl

theorem station_differences'_eq_canonical (df : List Trip) :
    station_differences' df = stationTable df := by
  rw [station_differences', stationTable, stationIndex, zip_map_map, List.map_map]
  simp only [Function.comp_def, lookupD_groupbySize]
  rfl

theorem station_flows_eq_canonical (df : List Trip) :
    station_flows df = stationTable df := by
  rw [station_flows, stationTable, stationIndex]
  simp only [lookupD_groupbySize]
  rfl

/-- C10: the three station-imbalance computations — the two copies in
`october_analysis.py` (whose end columns reindex over differently-ordered but
equal union indexes) and the `fillna(0)` version in `october_insights.py` —
produce identical tables for every input: same stations, and numerically equal
start_count, end_count and imbalance for each station. -/
theorem station_computations_agree (df : List Trip) :
    station_differences df = station_differences' df ∧
    station_differences df = station_flows df := by
  rw [station_differences_eq_canonical, station_differences'_eq_canonical,
    station_flows_eq_canonical]
  exact ⟨rfl, rfl⟩

/-! C2: station imbalance -/

theorem groupbySize_keys (xs : List String) :
    (groupbySize xs).map Prod.fst = sortedKeys xs := by
  rw [groupbySize, List.map_map]
  exact List.map_id'' (fun _ => rfl) _

theorem map_stationRow_names (df : List Trip) (idx : List String) :
    (idx.map (stationRow df)).map StationStats.station_name = idx := by
  rw [List.map_map]
  exact List.map_id'' (fun _ => rfl) idx

theorem mem_stationIndex {df : List Trip} {s : String} :
    s ∈ stationIndex df ↔
      s ∈ df.map Trip.start_station_name ∨ s ∈ df.map Trip.end_station_name := by
  rw [stationIndex, mem_indexUnion, groupbySize_keys, groupbySize_keys,
    mem_sortedKeys, mem_sortedKeys]

theorem nodup_stationIndex (df : List Trip) : (stationIndex df).Nodup :=
  nodup_sortedKeys _

theorem mem_stationTable_names {df : List Trip} {s : String} :
    s ∈ (stationTable df).map StationStats.station_name ↔
      s ∈ df.map Trip.start_station_name ∨ s ∈ df.map Trip.end_station_name := by
  rw [stationTable, ((sortDescBy_perm _ _).map StationStats.station_name).mem_iff,
    map_stationRow_names]
  exact mem_stationIndex

/-- Example from the spec: a trip from station `s` to station `e`; the
remaining enriched fields are arbitrary. -/
def exTrip (s e : String) : Trip :=
  { start_station_name := s, end_station_name := e, member_casual := "member",
    trip_duration_minutes := 10, date := 0, hour := 8, day_of_week := "Tuesday",
    is_weekend := false, is_rush_hour := true, distance_miles := 1 }

/-- The spec's 4-trip example: two trips A to B, one B to A, one A to A. -/
def exTrips4 : List Trip :=
  [exTrip "A" "B", exTrip "A" "B", exTrip "B" "A", exTrip "A" "A"]

/-- C2: the station-imbalance table has one entry per station in the union of
start and end station names (membership characterization plus no duplicate
names), every entry satisfies `imbalance = end_count - start_count` with the
true start/end counts, entries are sorted by imbalance descending, and on the
spec's 4-trip example the table is exactly
start(A)=3, end(A)=2, imbalance(A)=-1, start(B)=1, end(B)=2, imbalance(B)=+1. -/
theorem station_imbalance_spec (df : List Trip) :
    (∀ s, s ∈ (station_differences df).map StationStats.station_name ↔
      s ∈ df.map Trip.start_station_name ∨ s ∈ df.map Trip.end_station_name) ∧
    ((station_differences df).map StationStats.station_name).Nodup ∧
    (∀ e ∈ station_differences df,
      e.imbalance = (e.end_count : ℤ) - (e.start_count : ℤ) ∧
      e.start_count = (df.map Trip.start_station_name).count e.station_name ∧
      e.end_count = (df.map Trip.end_station_name).count e.station_name) ∧
    (station_differences df).Pairwise (fun a b => b.imbalance ≤ a.imbalance) ∧
    station_differences exTrips4 = [⟨"B", 1, 2, 1⟩, ⟨"A", 3, 2, -1⟩] := by
  refine ⟨?_, ?_, ?_, ?_, by decide⟩
  · intro s
    rw [station_differences_eq_canonical]
    exact mem_stationTable_names
  · rw [station_differences_eq_canonical, stationTable]
    apply ((sortDescBy_perm _ _).map StationStats.station_name).nodup_iff.mpr
    rw [map_stationRow_names]
    exact nodup_stationIndex df
  · intro e he
    rw [station_differences_eq_canonical, stationTable,
      (sortDescBy_perm _ _).mem_iff, List.mem_map] at he
    obtain ⟨k, -, rfl⟩ := he
    exact ⟨rfl, rfl, rfl⟩
  · rw [station_differences_eq_canonical, stationTable]
    exact sortDescBy_sorted _ _

theorem station_imbalance_spec_witness :
    (⟨"B", 1, 2, 1⟩ : StationStats).imbalance =
      ((⟨"B", 1, 2, 1⟩ : StationStats).end_count : ℤ) -
        ((⟨"B", 1, 2, 1⟩ : StationStats).start_count : ℤ) ∧
    (⟨"B", 1, 2, 1⟩ : StationStats).start_count =
      (exTrips4.map Trip.start_station_name).count
        (⟨"B", 1, 2, 1⟩ : StationStats).station_name ∧
    (⟨"B", 1, 2, 1⟩ : StationStats).end_count =
      (exTrips4.map Trip.end_station_name).count
        (⟨"B", 1, 2, 1⟩ : StationStats).station_name :=
  (station_imbalance_spec exTrips4).2.2.1 ⟨"B", 1, 2, 1⟩ (by decide)

/-! C3: top start stations -/

/-- `top_start_stations` of `october_analysis.py` lines 72-74:
`groupby("start_station_name").size().sort_values(ascending=False).head(n)`;
the source fixes `n = 10`, the spec's `topStations` takes `n` as a parameter
(`head(n)` is `take n`). -/
def top_start_stations (df : List Trip) (n : ℕ) : List (String × ℕ) :=
  (sortDescBy Prod.snd (groupbySize (df.map Trip.start_station_name))).take n

/-- C3 (amended): `top_start_stations` returns at most `n` entries, sorted by
count descending, and every returned count is the true number of trips
starting at that station.  The tie-break among equal counts is NOT first
occurrence in the input (see the counterexample): it is the reverse of the
groupby's ascending key order. -/
theorem top_start_stations_spec (df : List Trip) (n : ℕ) (hn : 0 < n) :
    (top_start_stations df n).length ≤ n ∧
    (top_start_stations df n).Pairwise (fun a b => b.2 ≤ a.2) ∧
    ∀ p ∈ top_start_stations df n,
      p.2 = (df.map Trip.start_station_name).count p.1 := by
  refine ⟨List.length_take_le n _, ?_, ?_⟩
  · exact (sortDescBy_sorted Prod.snd _).sublist (List.take_sublist _ _)
  · intro p hp
    have hp' : p ∈ sortDescBy Prod.snd (groupbySize (df.map Trip.start_station_name)) :=
      (List.take_sublist _ _).mem hp
    rw [(sortDescBy_perm _ _).mem_iff, groupbySize, List.mem_map] at hp'
    obtain ⟨k, -, rfl⟩ := hp'
    rfl

theorem top_start_stations_spec_witness :
    (top_start_stations exTrips4 1).length ≤ 1 ∧
    (("A", 3) : String × ℕ).2 =
      (exTrips4.map Trip.start_station_name).count (("A", 3) : String × ℕ).1 :=
  ⟨(top_start_stations_spec exTrips4 1 (by decide)).1,
   (top_start_stations_spec exTrips4 1 (by decide)).2.2 ("A", 3) (by decide)⟩

/-- C3 counterexample: two trips whose start stations first occur in the order
"A", "B" and have equal counts; the code returns them in the order "B", "A",
so equal counts are not ordered by first occurrence in the input. -/
theorem top_stations_tiebreak_counterexample :
    top_start_stations [exTrip "A" "X", exTrip "B" "X"] 2 = [("B", 1), ("A", 1)] ∧
    [exTrip "A" "X", exTrip "B" "X"].map Trip.start_station_name = ["A", "B"] ∧
    top_start_stations [exTrip "A" "X", exTrip "B" "X"] 2 ≠ [("A", 1), ("B", 1)] := by
  refine ⟨by decide, by decide, by decide⟩

/-! C4 and C9: the timelapse loop of `app.py` -/

/-- One row of `agg_data` in `app.py` (lines 22-29): trips grouped by
`(start_lat, start_lng, hour, day_of_week)` with their count. -/
structure AggRow where
  start_lat : ℚ
  start_lng : ℚ
  hour : ℕ
  day_of_week : String
  trip_count : ℕ
deriving DecidableEq

/-- The per-frame filter of the timelapse loop (`app.py` lines 102-105):
restrict `agg_data` to the frame's hour, and to the selected day unless the
day filter is "All". -/
def filterFrame (aggData : List AggRow) (day : String) (h : ℕ) : List AggRow :=
  if day ≠ "All" then
    aggData.filter (fun r => r.hour == h && r.day_of_week == day)
  else
    aggData.filter (fun r => r.hour == h)

/-- The timelapse loop of `app.py` lines 97-130:
`for h in range(hour, 24): if pause: break; <emit frame for h>`.
`pause k` is the pause flag observed at the top of iteration `k` (in the
Streamlit script this is the Pause button's state); the loop stops before
emitting the frame of the first iteration whose pause flag is set.  The
result is the list of emitted snapshots, one `(hour, filtered data)` pair
per frame. -/
def timelapseFrames (aggData : List AggRow) (day : String) (hour : ℕ)
    (pause : ℕ → Bool) : List (ℕ × List AggRow) :=
  ((List.range' hour (24 - hour)).takeWhile (fun h => !pause (h - hour))).map
    (fun h => (h, filterFrame aggData day h))

theorem timelapseFrames_hours (aggData : List AggRow) (day : String) (hour : ℕ)
    (pause : ℕ → Bool) :
    (timelapseFrames aggData day hour pause).map Prod.fst =
      (List.range' hour (24 - hour)).takeWhile (fun h => !pause (h - hour)) := by
  rw [timelapseFrames, List.map_map]
  exact List.map_id'' (fun _ => rfl) _

/-- C4 counterexample: starting the timelapse at hour 5 with no pause, the
first three emitted frames are for hours 5, 6, 7 — not 6, 7, 8 as the claim
states (the loop `range(hour, 24)` emits the starting hour first). -/
theorem timelapse_first_frames_counterexample :
    ((timelapseFrames [] "All" 5 (fun _ => false)).map Prod.fst).take 3 = [5, 6, 7] ∧
    ((timelapseFrames [] "All" 5 (fun _ => false)).map Prod.fst).take 3 ≠ [6, 7, 8] :=
  ⟨by decide, by decide⟩

/-- C4 (amended): starting at hour 5 with no pause, the first three frames are
for hours 5, 6, 7 in that order; if pause is requested after the first frame,
the run emits only hour 5's frame and stops before producing the next one; and
no frame's hour ever exceeds 23 (the run terminates, no wrap-around). -/
theorem timelapse_steps (aggData : List AggRow) (day : String) :
    ((timelapseFrames aggData day 5 (fun _ => false)).map Prod.fst).take 3 = [5, 6, 7] ∧
    (timelapseFrames aggData day 5 (fun k => decide (1 ≤ k))).map Prod.fst = [5] ∧
    ∀ start pause, ∀ f ∈ timelapseFrames aggData day start pause, f.1 ≤ 23 := by
  refine ⟨by rw [timelapseFrames_hours]; decide, by rw [timelapseFrames_hours]; decide, ?_⟩
  intro start pause f hf
  rw [timelapseFrames, List.mem_map] at hf
  obtain ⟨h, hh, rfl⟩ := hf
  have hr : h ∈ List.range' start (24 - start) :=
    (List.takeWhile_sublist _).mem hh
  have := List.mem_range'_1.mp hr
  omega

theorem timelapse_steps_witness :
    ((5 : ℕ), ([] : List AggRow)) ∈ timelapseFrames [] "All" 5 (fun _ => false) ∧
    ((5 : ℕ), ([] : List AggRow)).1 ≤ 23 :=
  ⟨by decide, (timelapse_steps [] "All").2.2 5 (fun _ => false) (5, []) (by decide)⟩

/-- C9: for every starting hour in [0, 23] and every day filter, every frame
the timelapse emits is for an hour between the starting hour and 23. -/
theorem timelapse_hours_in_range (aggData : List AggRow) (day : String)
    (start : ℕ) (pause : ℕ → Bool) (hstart : start ≤ 23) :
    ∀ f ∈ timelapseFrames aggData day start pause, start ≤ f.1 ∧ f.1 ≤ 23 := by
  intro f hf
  rw [timelapseFrames, List.mem_map] at hf
  obtain ⟨h, hh, rfl⟩ := hf
  have hr : h ∈ List.range' start (24 - start) :=
    (List.takeWhile_sublist _).mem hh
  have := List.mem_range'_1.mp hr
  omega

theorem timelapse_hours_in_range_witness :
    (5 : ℕ) ≤ 23 ∧
    ((5 : ℕ) ≤ ((5 : ℕ), ([] : List AggRow)).1 ∧ ((5 : ℕ), ([] : List AggRow)).1 ≤ 23) :=
  ⟨by decide,
   timelapse_hours_in_range [] "All" 5 (fun _ => false) (by decide) (5, []) (by decide)⟩

/-! C5: feature derivation -/

/-- Helper for the timestamp parser: reads a decimal digit string. -/
def digitsToNat : List Char → ℕ → Option ℕ
  | [], acc => some acc
  | c :: cs, acc =>
      if c.isDigit then digitsToNat cs (10 * acc + (c.toNat - 48)) else none

/-- Modelled behaviour of `pd.to_datetime` on one cell: an external parser
that either yields a timestamp or raises on an unparseable string.
Timestamps are modelled as seconds since the epoch written in decimal; any
other string fails to parse (the raise). -/
def toDatetime (s : String) : Option ℕ :=
  if s.data.isEmpty then none else digitsToNat s.data 0

/-- Day-of-week names as `dt.day_name()` yields them; day 0 of the epoch
(1970-01-01) was a Thursday. -/
def dayName (d : ℕ) : String :=
  ["Thursday", "Friday", "Saturday", "Sunday", "Monday", "Tuesday",
    "Wednesday"].getD (d % 7) ""

/-- Modelled from the spec: `geopy.distance.geodesic(start, end).miles` is an
external library function, total on in-range coordinates; the exact geodesic
formula is an implementation choice (spec section 4.2).  Modelled as a total
surrogate function of the two endpoints; no claim depends on its values. -/
def geodesicMiles (lat1 lng1 lat2 lng2 : ℚ) : ℚ :=
  69 * (|lat2 - lat1| + |lng2 - lng1|)

/-- The feature-derivation stage of `load_and_preprocess_data`
(`october_insights.py` lines 29-48, `october_analysis.py` lines 23-40):
`pd.to_datetime` on `ended_at` and `started_at` (raising on parse failure,
modelled as `Except.error`), duration in minutes as their difference over 60,
date / hour / day-of-week / weekend flag / rush-hour flag from `started_at`,
and the geodesic distance of the two endpoints. -/
def deriveFeatures (r : RawRecord) : Except String Trip :=
  match r.start_lat, r.start_lng, r.end_lat, r.end_lng with
  | some slat, some slng, some elat, some elng =>
    match toDatetime r.ended_at, toDatetime r.started_at with
    | some te, some ts =>
        Except.ok
          { start_station_name := r.start_station_name,
            end_station_name := r.end_station_name,
            member_casual := r.member_casual,
            trip_duration_minutes := ((te : ℚ) - (ts : ℚ)) / 60,
            date := ts / 86400,
            hour := ts / 3600 % 24,
            day_of_week := dayName (ts / 86400),
            is_weekend := decide (dayName (ts / 86400) ∈ (["Saturday", "Sunday"] : List String)),
            is_rush_hour := decide ((ts / 3600 % 24) ∈ ([7, 8, 9, 16, 17, 18] : List ℕ)),
            distance_miles := geodesicMiles slat slng elat elng }
    | _, _ => Except.error "to_datetime: could not parse timestamp"
  | _, _, _, _ => Except.error "missing coordinate"

/-- A record whose coordinates are valid but whose `started_at` does not
parse. -/
def badTimestampRecord : RawRecord :=
  { start_lat := some 37, start_lng := some (-122), end_lat := some 37,
    end_lng := some (-122), started_at := "soon", ended_at := "60",
    start_station_name := "A", end_station_name := "B",
    member_casual := "member" }

/-- A record whose coordinates are valid and whose timestamps parse. -/
def goodRecord : RawRecord :=
  { start_lat := some 37, start_lng := some (-122), end_lat := some 37,
    end_lng := some (-122), started_at := "3600", ended_at := "7200",
    start_station_name := "A", end_station_name := "B",
    member_casual := "member" }

/-- C5 counterexample: a record that passes coordinate validation but whose
`started_at` cannot be parsed makes feature derivation raise
(`pd.to_datetime` with its default `errors="raise"`), so derivation is not
total on validated records regardless of timestamp contents. -/
theorem derive_total_counterexample :
    specValid badTimestampRecord = true ∧
    deriveFeatures badTimestampRecord =
      Except.error "to_datetime: could not parse timestamp" :=
  ⟨by decide, rfl⟩

/-- C5 (amended): feature derivation succeeds on every validated record whose
two timestamps parse; a validated record with an unparseable timestamp makes
the pipeline raise instead (see the counterexample). -/
theorem deriveFeatures_total (r : RawRecord) (hv : specValid r = true)
    (hs : (toDatetime r.started_at).isSome = true)
    (he : (toDatetime r.ended_at).isSome = true) :
    ∃ t, deriveFeatures r = Except.ok t := by
  have hb : (coordsInRange r && hasCoords r) = true := by
    rw [hasCoords_and_coordsInRange]; exact hv
  have hc : hasCoords r = true := by
    have := hb
    simp only [Bool.and_eq_true] at this
    exact this.2
  rw [hasCoords] at hc
  simp only [Bool.and_eq_true] at hc
  obtain ⟨⟨⟨h1, h2⟩, h3⟩, h4⟩ := hc
  obtain ⟨slat, hslat⟩ := Option.isSome_iff_exists.mp h1
  obtain ⟨slng, hslng⟩ := Option.isSome_iff_exists.mp h2
  obtain ⟨elat, helat⟩ := Option.isSome_iff_exists.mp h3
  obtain ⟨elng, helng⟩ := Option.isSome_iff_exists.mp h4
  obtain ⟨ts, hts⟩ := Option.isSome_iff_exists.mp hs
  obtain ⟨te, hte⟩ := Option.isSome_iff_exists.mp he
  have heq : deriveFeatures r = Except.ok
      { start_station_name := r.start_station_name,
        end_station_name := r.end_station_name,
        member_casual := r.member_casual,
        trip_duration_minutes := ((te : ℚ) - (ts : ℚ)) / 60,
        date := ts / 86400,
        hour := ts / 3600 % 24,
        day_of_week := dayName (ts / 86400),
        is_weekend := decide (dayName (ts / 86400) ∈ (["Saturday", "Sunday"] : List String)),
        is_rush_hour := decide ((ts / 3600 % 24) ∈ ([7, 8, 9, 16, 17, 18] : List ℕ)),
        distance_miles := geodesicMiles slat slng elat elng } := by
    simp only [deriveFeatures, hslat, hslng, helat, helng, hts, hte]
  exact ⟨_, heq⟩

theorem deriveFeatures_total_witness :
    specValid goodRecord = true ∧ ∃ t, deriveFeatures goodRecord = Except.ok t :=
  ⟨by decide, deriveFeatures_total goodRecord (by decide) (by decide) (by decide)⟩

/-! C6: memoization -/

/-- Modelled from the spec: the repository's caching is the external
`st.cache_data` decorator (`october_analysis.py` lines 61-62,
`october_insights.py` lines 15-16), whose memoization table is not repository
code.  Spec section 4.4's MemoizationCache state: a table from fingerprints
to results, plus a counter of underlying computations. -/
structure CacheState (κ ρ : Type) where
  entries : List (κ × ρ)
  computeCount : ℕ

/-- Modelled from the spec: `get_or_compute(fingerprint, computeFn)` — return
the cached result when the fingerprint is present, otherwise run `computeFn`,
store its result and count the computation. -/
def get_or_compute {κ ρ : Type} [DecidableEq κ] (c : CacheState κ ρ) (k : κ)
    (f : Unit → ρ) : ρ × CacheState κ ρ :=
  match (c.entries.find? (fun p => decide (p.1 = k))).map Prod.snd with
  | some v => (v, c)
  | none =>
      let v := f ()
      (v, ⟨(k, v) :: c.entries, c.computeCount + 1⟩)

/-- Modelled from the spec: `query(dataset, queryType, params)` dispatches to
the compute function through the cache, fingerprinted by the full triple
(dataset version, operation, filter parameters). -/
def cachedQuery {δ π ρ : Type} [DecidableEq δ] [DecidableEq π]
    (c : CacheState (δ × String × π) ρ) (dataset : δ) (queryType : String)
    (params : π) (computeFn : δ → String → π → ρ) :
    ρ × CacheState (δ × String × π) ρ :=
  get_or_compute c (dataset, queryType, params)
    (fun _ => computeFn dataset queryType params)

theorem get_or_compute_found {κ ρ : Type} [DecidableEq κ] (c : CacheState κ ρ)
    (k : κ) (f : Unit → ρ) :
    (((get_or_compute c k f).2.entries.find? (fun p => decide (p.1 = k))).map
        Prod.snd) = some (get_or_compute c k f).1 := by
  rw [get_or_compute]
  split
  · next v heq => simpa using heq
  · next heq => simp

theorem get_or_compute_idem {κ ρ : Type} [DecidableEq κ] (c : CacheState κ ρ)
    (k : κ) (f : Unit → ρ) :
    get_or_compute (get_or_compute c k f).2 k f =
      ((get_or_compute c k f).1, (get_or_compute c k f).2) := by
  have h := get_or_compute_found c k f
  rw [get_or_compute, h]

/-- C6: querying twice with the same `(dataset, queryType, params)` returns
value-equal results, and the second call performs no computation: the cache
state, and in particular the count of underlying computations, is unchanged. -/
theorem query_idempotent {δ π ρ : Type} [DecidableEq δ] [DecidableEq π]
    (c : CacheState (δ × String × π) ρ) (dataset : δ) (queryType : String)
    (params : π) (computeFn : δ → String → π → ρ) :
    (cachedQuery (cachedQuery c dataset queryType params computeFn).2
        dataset queryType params computeFn).1 =
      (cachedQuery c dataset queryType params computeFn).1 ∧
    (cachedQuery (cachedQuery c dataset queryType params computeFn).2
        dataset queryType params computeFn).2.computeCount =
      (cachedQuery c dataset queryType params computeFn).2.computeCount := by
  rw [cachedQuery, cachedQuery, get_or_compute_idem]
  exact ⟨rfl, rfl⟩

theorem query_idempotent_witness :
    (cachedQuery (cachedQuery (⟨[], 0⟩ : CacheState (ℕ × String × ℕ) ℕ) 1 "hourly" 2
          (fun a _ c => a + c)).2 1 "hourly" 2 (fun a _ c => a + c)).1 =
      (cachedQuery (⟨[], 0⟩ : CacheState (ℕ × String × ℕ) ℕ) 1 "hourly" 2
          (fun a _ c => a + c)).1 ∧
    (cachedQuery (cachedQuery (⟨[], 0⟩ : CacheState (ℕ × String × ℕ) ℕ) 1 "hourly" 2
          (fun a _ c => a + c)).2 1 "hourly" 2 (fun a _ c => a + c)).2.computeCount =
      (cachedQuery (⟨[], 0⟩ : CacheState (ℕ × String × ℕ) ℕ) 1 "hourly" 2
          (fun a _ c => a + c)).2.computeCount :=
  query_idempotent ⟨[], 0⟩ 1 "hourly" 2 (fun a _ c => a + c)

/-! C7: summary metrics on empty input -/

/-- A pandas float scalar: either NaN or a number.  pandas reductions on an
empty Series yield NaN (the float `nan`), not a null/None value. -/
inductive PFloat where
  | nan : PFloat
  | val : ℚ → PFloat
deriving DecidableEq

/-- `Series.mean()`: NaN on an empty series, otherwise the arithmetic mean. -/
def seriesMean (xs : List ℚ) : PFloat :=
  if xs.length = 0 then PFloat.nan else PFloat.val (xs.sum / (xs.length : ℚ))

/-- `Series.median()`: NaN on an empty series, otherwise the middle of the
sorted values (mean of the two middles for even length). -/
def seriesMedian (xs : List ℚ) : PFloat :=
  if xs.length = 0 then PFloat.nan
  else
    let s := xs.insertionSort (· ≤ ·)
    if xs.length % 2 = 1 then PFloat.val (s.getD (xs.length / 2) 0)
    else PFloat.val ((s.getD (xs.length / 2 - 1) 0 + s.getD (xs.length / 2) 0) / 2)

/-- `Series.max()`: NaN on an empty series, otherwise the maximum. -/
def seriesMax (xs : List ℚ) : PFloat :=
  match xs with
  | [] => PFloat.nan
  | x :: rest => PFloat.val (rest.foldl max x)

/-- `calculate_trip_metrics` of `october_insights.py` lines 84-92:
`(len(df), mean duration, median duration, mean distance, max distance)`. -/
def calculate_trip_metrics (df : List Trip) : ℕ × PFloat × PFloat × PFloat × PFloat :=
  (df.length,
   seriesMean (df.map Trip.trip_duration_minutes),
   seriesMedian (df.map Trip.trip_duration_minutes),
   seriesMean (df.map Trip.distance_miles),
   seriesMax (df.map Trip.distance_miles))

/-- Python `f"{x:.1f}"` applied to a pandas float scalar: NaN prints as
"nan"; a number prints in fixed-point rounded to one decimal.  Only the NaN
branch is observed by the claims. -/
def formatFloat1 : PFloat → String
  | PFloat.nan => "nan"
  | PFloat.val q =>
      let n : ℤ := round (q * 10)
      let sign := if n < 0 then "-" else ""
      sign ++ toString (n.natAbs / 10) ++ "." ++ toString (n.natAbs % 10)

/-- The user-facing average-duration metric text of `october_insights.py`
`main` (line 241): `f"{avg_duration:.1f} min"`. -/
def avgDurationMetricText (df : List Trip) : String :=
  formatFloat1 (calculate_trip_metrics df).2.1 ++ " min"

/-- C7 counterexample: on an empty trip collection the means and medians are
the float NaN — not null/undefined — and that NaN is formatted into the
user-facing metric text as "nan", contradicting the claim that no NaN is
silently propagated into user-facing text. -/
theorem summary_empty_counterexample :
    calculate_trip_metrics ([] : List Trip) =
      (0, PFloat.nan, PFloat.nan, PFloat.nan, PFloat.nan) ∧
    avgDurationMetricText [] = "nan min" :=
  ⟨by decide, by decide⟩

/-- C7 (amended): on an empty trip collection `calculate_trip_metrics`
returns `total_trips = 0` and does not raise (it is total and yields this
tuple), but its means/medians are the float NaN, which the UI formats into
the user-facing metric text as "nan". -/
theorem summary_empty_spec :
    (calculate_trip_metrics ([] : List Trip)).1 = 0 ∧
    (calculate_trip_metrics ([] : List Trip)).2.1 = PFloat.nan ∧
    (calculate_trip_metrics ([] : List Trip)).2.2.1 = PFloat.nan ∧
    avgDurationMetricText [] = "nan min" :=
  ⟨by decide, by decide, by decide, by decide⟩

/-! C8: user-type split -/

/-- `value_counts(normalize=True)` on a column: counts of each distinct value
sorted by count descending, each divided by the number of rows.  On an empty
column the result is empty (the division never happens), not a
divide-by-zero. -/
def value_counts_normalize (xs : List String) : List (String × ℚ) :=
  (sortDescBy Prod.snd (xs.dedup.map (fun k => (k, xs.count k)))).map
    (fun p => (p.1, (p.2 : ℚ) / (xs.length : ℚ)))

/-- `user_type_distribution` of `october_analysis.py` lines 81-82 (and the
`user_dist` of `october_insights.py` lines 104-106):
`df["member_casual"].value_counts(normalize=True)`. -/
def user_type_distribution (df : List Trip) : List (String × ℚ) :=
  value_counts_normalize (df.map Trip.member_casual)

theorem value_counts_normalize_sum (xs : List String) (h : xs ≠ []) :
    ((value_counts_normalize xs).map Prod.snd).sum = 1 := by
  rw [value_counts_normalize, List.map_map]
  have hperm := (sortDescBy_perm Prod.snd (xs.dedup.map fun k => (k, xs.count k))).map
    (Prod.snd ∘ fun p : String × ℕ => (p.1, (p.2 : ℚ) / (xs.length : ℚ)))
  rw [hperm.sum_eq, List.map_map]
  have hcomp : ((Prod.snd ∘ fun p : String × ℕ => (p.1, (p.2 : ℚ) / (xs.length : ℚ))) ∘
      fun k => (k, xs.count k)) = fun k => (xs.count k : ℚ) / (xs.length : ℚ) := rfl
  rw [hcomp]
  have hlen : (xs.length : ℚ) ≠ 0 := by
    have : xs.length ≠ 0 := fun h0 => h (List.length_eq_zero.mp h0)
    exact_mod_cast this
  have hsum : (xs.dedup.map fun k => (xs.count k : ℚ)).sum = (xs.length : ℚ) := by
    have h1 : (((xs.dedup.map fun k => xs.count k).sum : ℕ) : ℚ) = (xs.length : ℚ) :=
      congrArg (Nat.cast : ℕ → ℚ) (List.sum_map_count_dedup_eq_length xs)
    rw [Nat.cast_list_sum, List.map_map] at h1
    exact h1
  calc (xs.dedup.map fun k => (xs.count k : ℚ) / (xs.length : ℚ)).sum
      = (xs.dedup.map fun k => (xs.count k : ℚ) * ((xs.length : ℚ))⁻¹).sum := by
        simp only [div_eq_mul_inv]
    _ = (xs.dedup.map fun k => (xs.count k : ℚ)).sum * ((xs.length : ℚ))⁻¹ :=
        List.sum_map_mul_right _ _ _
    _ = (xs.length : ℚ) * ((xs.length : ℚ))⁻¹ := by rw [hsum]
    _ = 1 := mul_inv_cancel₀ hlen

/-- C8: on every non-empty trip collection the user-type fractions sum to 1;
on an empty collection the result is the empty mapping (no division by
zero). -/
theorem user_type_split_spec (df : List Trip) :
    (df ≠ [] → ((user_type_distribution df).map Prod.snd).sum = 1) ∧
    user_type_distribution ([] : List Trip) = [] := by
  refine ⟨fun hne => value_counts_normalize_sum _ ?_, rfl⟩
  exact fun h0 => hne (List.map_eq_nil_iff.mp h0)

theorem user_type_split_spec_witness :
    ([exTrip "A" "B"] : List Trip) ≠ [] ∧
    ((user_type_distribution [exTrip "A" "B"]).map Prod.snd).sum = 1 :=
  ⟨by decide, (user_type_split_spec [exTrip "A" "B"]).1 (by decide)⟩

end BayWheels
